import Mathlib

/-!
Shallow embedding of the falling-block game in `src/main.rs` and proofs
about its piece geometry, board operations and state machine.

Modelling conventions:
* Rust `usize` values are `Nat`.  Subtraction on `usize` panics in debug
  builds and wraps in release builds; we model any such underflow as the
  `none` value of an `Option` wrapper (a "panic" outcome), kept distinct
  from the explicit `Err(())` value that `get_piece_position` returns,
  which is modelled as `some (Except.error ())`.
* Random choices (`rand::random`, `gen_range`) are modelled as explicit
  parameters (the color, piece and rotation index of a spawned block).
* Terminal I/O (drawing) has no effect on game data and is omitted.
-/

/-- `struct Coordinates { row: usize, col: usize }`. -/
structure Coordinates where
  row : Nat
  col : Nat
deriving DecidableEq, Repr

/-- A Rust `[Coordinates; 4]`: the four cells of a piece.  `c0` is the
anchor cell (`position[0]` in the source). -/
structure Pos4 where
  c0 : Coordinates
  c1 : Coordinates
  c2 : Coordinates
  c3 : Coordinates
deriving DecidableEq, Repr

def Pos4.toList (p : Pos4) : List Coordinates := [p.c0, p.c1, p.c2, p.c3]

def Pos4.all (p : Pos4) (f : Coordinates → Bool) : Bool :=
  f p.c0 && f p.c1 && f p.c2 && f p.c3

def Pos4.any (p : Pos4) (f : Coordinates → Bool) : Bool :=
  f p.c0 || f p.c1 || f p.c2 || f p.c3

def Pos4.map (p : Pos4) (f : Coordinates → Coordinates) : Pos4 :=
  ⟨f p.c0, f p.c1, f p.c2, f p.c3⟩

/-- `enum Piece { I, J, L, O, S, T, Z }`. -/
inductive Piece where
  | I | J | L | O | S | T | Z
deriving DecidableEq, Repr, Fintype

/-- `enum Color`. -/
inductive Color where
  | Red | Blue | Orange | Yellow | Green | Violet | Brown
deriving DecidableEq, Repr, Fintype

/-- `enum Square { Empty, Occupied(Color) }`. -/
inductive Square where
  | Empty
  | Occupied (c : Color)
deriving DecidableEq, Repr

/-- `enum GameState { Playing, Pause, Menu, EndScreen }`. -/
inductive GameState where
  | Playing | Pause | Menu | EndScreen
deriving DecidableEq, Repr

/-- `enum KeyEvent`. -/
inductive KeyEvent where
  | Down | Left | Right | Rotate | Quit | Play | Pause
deriving DecidableEq, Repr

/-- `enum GameEvent { Tick, Key(KeyEvent) }`. -/
inductive GameEvent where
  | Tick
  | Key (k : KeyEvent)
deriving DecidableEq, Repr

/-- `const COLS: usize = 10`. -/
def COLS : Nat := 10

/-- `const ROWS: usize = 23`. -/
def ROWS : Nat := 23

/-- Checked `usize` subtraction: `none` models the underflow panic/wrap. -/
def sub? (a b : Nat) : Option Nat :=
  if b ≤ a then some (a - b) else none

/-- Build a coordinate from two checked component computations. -/
def mkC (r c : Option Nat) : Option Coordinates :=
  match r, c with
  | some r, some c => some ⟨r, c⟩
  | _, _ => none

/-- Build the four cells of an arm of `get_piece_position`; any underflow
in a component makes the whole arm panic (`none`). -/
def mk4 (a b c d : Option Coordinates) : Option Pos4 :=
  match a, b, c, d with
  | some a, some b, some c, some d => some ⟨a, b, c, d⟩
  | _, _, _, _ => none

/-- An `Ok(...)` arm of `get_piece_position`. -/
def okArm (a b c d : Option Coordinates) : Option (Except Unit Pos4) :=
  (mk4 a b c d).map Except.ok

/-- `fn get_piece_position(piece, pos, coor) -> Result<[Coordinates; 4], ()>`.
The outer `Option` models a panic (unsigned underflow inside an arm);
`some (Except.error ())` is the source's `Err(())` fall-through arm. -/
def get_piece_position (piece : Piece) (pos : Nat) (coor : Coordinates) :
    Option (Except Unit Pos4) :=
  match piece with
  | .I =>
    if pos % 2 = 1 ∧ 1 < coor.row then
      okArm (mkC (some coor.row) (some coor.col))
            (mkC (sub? coor.row 1) (some coor.col))
            (mkC (sub? coor.row 2) (some coor.col))
            (mkC (some (coor.row + 1)) (some coor.col))
    else if pos % 2 = 0 ∧ 0 < coor.col then
      okArm (mkC (some coor.row) (some coor.col))
            (mkC (some coor.row) (some (coor.col + 1)))
            (mkC (some coor.row) (some (coor.col + 2)))
            (mkC (some coor.row) (sub? coor.col 1))
    else some (Except.error ())
  | .J =>
    match pos with
    | 0 =>
      if 0 < coor.col then
        okArm (mkC (some coor.row) (some coor.col))
              (mkC (some coor.row) (sub? coor.col 1))
              (mkC (some coor.row) (some (coor.col + 1)))
              (mkC (some (coor.row + 1)) (some (coor.col + 1)))
      else some (Except.error ())
    | 1 =>
      if 0 < coor.col then
        okArm (mkC (some coor.row) (some coor.col))
              (mkC (sub? coor.row 1) (some coor.col))
              (mkC (some (coor.row + 1)) (some coor.col))
              (mkC (some (coor.row + 1)) (sub? coor.col 1))
      else some (Except.error ())
    | 2 =>
      if 0 < coor.col then
        okArm (mkC (some coor.row) (some coor.col))
              (mkC (some coor.row) (some (coor.col + 1)))
              (mkC (some coor.row) (sub? coor.col 1))
              (mkC (sub? coor.row 1) (sub? coor.col 1))
      else some (Except.error ())
    | 3 =>
      okArm (mkC (some coor.row) (some coor.col))
            (mkC (sub? coor.row 1) (some coor.col))
            (mkC (sub? coor.row 1) (some (coor.col + 1)))
            (mkC (some (coor.row + 1)) (some coor.col))
    | _ => some (Except.error ())
  | .L =>
    match pos with
    | 0 =>
      if 0 < coor.col then
        okArm (mkC (some coor.row) (some coor.col))
              (mkC (some coor.row) (some (coor.col + 1)))
              (mkC (some coor.row) (sub? coor.col 1))
              (mkC (sub? coor.row 1) (some (coor.col + 1)))
      else some (Except.error ())
    | 1 =>
      okArm (mkC (some coor.row) (some coor.col))
            (mkC (sub? coor.row 1) (some coor.col))
            (mkC (some (coor.row + 1)) (some coor.col))
            (mkC (some (coor.row + 1)) (some (coor.col + 1)))
    | 2 =>
      if 0 < coor.col then
        okArm (mkC (some coor.row) (some coor.col))
              (mkC (some coor.row) (some (coor.col + 1)))
              (mkC (some coor.row) (sub? coor.col 1))
              (mkC (some (coor.row + 1)) (sub? coor.col 1))
      else some (Except.error ())
    | 3 =>
      okArm (mkC (some coor.row) (some coor.col))
            (mkC (some (coor.row + 1)) (some coor.col))
            (mkC (sub? coor.row 1) (some coor.col))
            (mkC (sub? coor.row 1) (sub? coor.col 1))
    | _ => some (Except.error ())
  | .T =>
    match pos with
    | 0 =>
      if 0 < coor.col then
        okArm (mkC (some coor.row) (some coor.col))
              (mkC (some coor.row) (sub? coor.col 1))
              (mkC (some coor.row) (some (coor.col + 1)))
              (mkC (some (coor.row + 1)) (some coor.col))
      else some (Except.error ())
    | 1 =>
      if 0 < coor.col then
        okArm (mkC (some coor.row) (some coor.col))
              (mkC (some (coor.row + 1)) (some coor.col))
              (mkC (sub? coor.row 1) (some coor.col))
              (mkC (some coor.row) (sub? coor.col 1))
      else some (Except.error ())
    | 2 =>
      if 0 < coor.col then
        okArm (mkC (some coor.row) (some coor.col))
              (mkC (some coor.row) (some (coor.col + 1)))
              (mkC (some coor.row) (sub? coor.col 1))
              (mkC (sub? coor.row 1) (some coor.col))
      else some (Except.error ())
    | 3 =>
      okArm (mkC (some coor.row) (some coor.col))
            (mkC (sub? coor.row 1) (some coor.col))
            (mkC (some (coor.row + 1)) (some coor.col))
            (mkC (some coor.row) (some (coor.col + 1)))
    | _ => some (Except.error ())
  | .S =>
    if pos % 2 = 1 then
      okArm (mkC (some coor.row) (some coor.col))
            (mkC (sub? coor.row 1) (some coor.col))
            (mkC (some coor.row) (some (coor.col + 1)))
            (mkC (some (coor.row + 1)) (some (coor.col + 1)))
    else if 0 < coor.col then
      okArm (mkC (some coor.row) (some coor.col))
            (mkC (some coor.row) (sub? coor.col 1))
            (mkC (sub? coor.row 1) (some coor.col))
            (mkC (sub? coor.row 1) (some (coor.col + 1)))
    else some (Except.error ())
  | .Z =>
    if pos % 2 = 1 then
      okArm (mkC (some coor.row) (some coor.col))
            (mkC (some (coor.row + 1)) (some coor.col))
            (mkC (some coor.row) (some (coor.col + 1)))
            (mkC (sub? coor.row 1) (some (coor.col + 1)))
    else if 0 < coor.col then
      okArm (mkC (some coor.row) (some coor.col))
            (mkC (some coor.row) (sub? coor.col 1))
            (mkC (some (coor.row + 1)) (some coor.col))
            (mkC (some (coor.row + 1)) (some (coor.col + 1)))
    else some (Except.error ())
  | .O =>
    okArm (mkC (some coor.row) (some coor.col))
          (mkC (some coor.row) (some (coor.col + 1)))
          (mkC (sub? coor.row 1) (some coor.col))
          (mkC (sub? coor.row 1) (some (coor.col + 1)))

/-- `struct Block`. -/
structure Block where
  position : Pos4
  color : Color
  piece : Piece
  rotation_pos : Nat
deriving DecidableEq, Repr

/-- `Block::new()`: color, piece and rotation index are random in the
source and are parameters here; the anchor is fixed at
`row 4, col COLS / 2`.  `none` models the `.unwrap()` panic. -/
def Block.new (color : Color) (piece : Piece) (rotation_pos : Nat) : Option Block :=
  let coor : Coordinates := ⟨4, COLS / 2⟩
  match get_piece_position piece rotation_pos coor with
  | some (Except.ok position) => some { position, color, piece, rotation_pos }
  | _ => none

/-- `Block::down()`: every cell one row down. -/
def Block.down (b : Block) : Block :=
  { b with position := b.position.map fun c => ⟨c.row + 1, c.col⟩ }

/-- `Block::left()`: one column left, only if every cell has `col > 0`. -/
def Block.left (b : Block) : Block :=
  if b.position.all fun sq => decide (0 < sq.col) then
    { b with position := b.position.map fun c => ⟨c.row, c.col - 1⟩ }
  else b

/-- `Block::right()`: every cell one column right. -/
def Block.right (b : Block) : Block :=
  { b with position := b.position.map fun c => ⟨c.row, c.col + 1⟩ }

/-- `Block::rotate()`: try the next rotation index at the current anchor
(`position[0]`); keep the block unchanged if the geometry fails with
`Err`, propagate a panic (`none`) if it underflows. -/
def Block.rotate (b : Block) : Option Block :=
  let rp := (b.rotation_pos + 1) % 4
  match get_piece_position b.piece rp b.position.c0 with
  | none => none
  | some (Except.error _) => some b
  | some (Except.ok p) => some { b with rotation_pos := rp, position := p }

/-- Four successive `rotate()` calls. -/
def rotate4 (b : Block) : Option Block :=
  b.rotate.bind Block.rotate |>.bind Block.rotate |>.bind Block.rotate

/-- `struct Tetris`. -/
structure Tetris where
  board : List (List Square)
  current_block : Block
  next_block : Block
  points : Nat
  state : GameState
deriving DecidableEq, Repr

/-- `Tetris::new()`: empty `ROWS x COLS` board, score 0, state `Menu`; the
two random spawned blocks are parameters. -/
def Tetris.new (cur nxt : Block) : Tetris :=
  { board := List.replicate ROWS (List.replicate COLS Square.Empty),
    current_block := cur,
    next_block := nxt,
    points := 0,
    state := GameState.Menu }

/-- `Tetris::is_occupied(coor)`: `none` models the out-of-bounds indexing
panic of `self.board[coor.row][coor.col]`. -/
def Tetris.is_occupied (t : Tetris) (coor : Coordinates) : Option Bool :=
  (t.board[coor.row]?).bind fun r =>
    (r[coor.col]?).map fun sq =>
      match sq with
      | Square.Occupied _ => true
      | Square.Empty => false

/-- `Tetris::is_collision(block)`.  The source's short-circuit `||` reaches
`is_occupied` only for cells with `col < COLS` and `row < ROWS`, which on a
`ROWS x COLS` board are in bounds, so the `getD false` default is never
used there. -/
def Tetris.is_collision (t : Tetris) (block : Block) : Bool :=
  block.position.any fun sq =>
    decide (COLS ≤ sq.col) || decide (ROWS ≤ sq.row) ||
      ((t.is_occupied sq).getD false)

/-- `Tetris::can_block_move(block, movement)`. -/
def Tetris.can_block_move (t : Tetris) (block : Block) (movement : KeyEvent) : Bool :=
  block.position.all fun sq =>
    match movement with
    | KeyEvent.Down =>
      let s : Coordinates := ⟨sq.row + 1, sq.col⟩
      decide (s.col < COLS) && decide (s.row < ROWS) && !((t.is_occupied s).getD false)
    | KeyEvent.Right =>
      let s : Coordinates := ⟨sq.row, sq.col + 1⟩
      decide (s.col < COLS) && decide (s.row < ROWS) && !((t.is_occupied s).getD false)
    | KeyEvent.Left =>
      if sq.col = 0 then false
      else
        let s : Coordinates := ⟨sq.row, sq.col - 1⟩
        decide (s.col < COLS) && decide (s.row < ROWS) && !((t.is_occupied s).getD false)
    | _ => false

/-- One cell assignment `board[coor.row][coor.col] = sq` (callers keep the
coordinates in bounds; the source would panic out of bounds). -/
def setCell (board : List (List Square)) (coor : Coordinates) (sq : Square) :
    List (List Square) :=
  board.set coor.row ((board.getD coor.row []).set coor.col sq)

/-- `Tetris::add_current_block()`: lock the current block's 4 cells. -/
def Tetris.add_current_block (t : Tetris) : Tetris :=
  { t with
    board := t.current_block.position.toList.foldl
      (fun b c => setCell b c (Square.Occupied t.current_block.color)) t.board }

/-- The `retain` predicate of `remove_lines_completed`: the row still has
an `Empty` square. -/
def rowHasEmpty (row : List Square) : Bool :=
  row.any fun sq => decide (sq = Square.Empty)

/-- `Tetris::remove_lines_completed()`. -/
def Tetris.remove_lines_completed (t : Tetris) : Tetris :=
  let kept := t.board.filter rowHasEmpty
  let deleted := ROWS - kept.length
  if 0 < deleted then
    { t with
      board := List.replicate deleted (List.replicate COLS Square.Empty) ++ kept,
      points := t.points + deleted }
  else { t with board := kept }

/-- `Tetris::is_end()`: `iter().rev().skip(ROWS - 2)`. -/
def Tetris.is_end (t : Tetris) : Bool :=
  (t.board.reverse.drop (ROWS - 2)).any fun val =>
    val.any fun sq => decide (sq ≠ Square.Empty)

/-- `Tetris::tick()`.  The source mutates `self` before returning `Err`,
so the error value carries the mutated session; the freshly spawned
`Block::new()` is the `fresh` parameter. -/
def Tetris.tick (t : Tetris) (fresh : Block) : Except Tetris Tetris :=
  if !(t.can_block_move t.current_block KeyEvent.Down) then
    let t1 := t.add_current_block
    let t2 := t1.remove_lines_completed
    if t2.is_end then Except.error t2
    else if t2.is_collision t2.next_block then Except.error t2
    else Except.ok { t2 with current_block := t2.next_block, next_block := fresh }
  else Except.ok { t with current_block := t.current_block.down }

/-- `Tetris::block_down()`. -/
def Tetris.block_down (t : Tetris) : Tetris :=
  if t.can_block_move t.current_block KeyEvent.Down then
    { t with current_block := t.current_block.down }
  else t

/-- `Tetris::block_left()`. -/
def Tetris.block_left (t : Tetris) : Tetris :=
  if t.can_block_move t.current_block KeyEvent.Left then
    { t with current_block := t.current_block.left }
  else t

/-- `Tetris::block_right()`. -/
def Tetris.block_right (t : Tetris) : Tetris :=
  if t.can_block_move t.current_block KeyEvent.Right then
    { t with current_block := t.current_block.right }
  else t

/-- `Tetris::block_rotate()`: `none` models a panic inside `rotate`. -/
def Tetris.block_rotate (t : Tetris) : Option Tetris :=
  (t.current_block.rotate).map fun block =>
    if !(t.is_collision block) then { t with current_block := block }
    else t

/-- Outcome of one iteration of the consumer loop in `Tetris::play()`. -/
inductive StepResult where
  | next (t : Tetris)
  | quit
  | panicked
deriving DecidableEq, Repr

/-- One iteration of the consumer loop of `Tetris::play()`, dispatching on
the current state and the received event.  `f1 f2 f3` stand for the
`Block::new()` spawns the iteration may perform (`f1` also feeds `tick`;
the `EndScreen`/`Play` arm uses `f1, f2` for `Tetris::new()` and `f3` for
the `start()` respawn). -/
def Tetris.step (t : Tetris) (ev : GameEvent) (f1 f2 f3 : Block) : StepResult :=
  match t.state with
  | GameState.Menu =>
    match ev with
    | GameEvent.Key KeyEvent.Play =>
      StepResult.next { t with state := GameState.Playing, current_block := f1 }
    | GameEvent.Key KeyEvent.Quit => StepResult.quit
    | _ => StepResult.next t
  | GameState.Playing =>
    match ev with
    | GameEvent.Key KeyEvent.Quit => StepResult.quit
    | GameEvent.Key KeyEvent.Left => StepResult.next t.block_left
    | GameEvent.Key KeyEvent.Right => StepResult.next t.block_right
    | GameEvent.Key KeyEvent.Down => StepResult.next t.block_down
    | GameEvent.Key KeyEvent.Rotate =>
      match t.block_rotate with
      | some t2 => StepResult.next t2
      | none => StepResult.panicked
    | GameEvent.Key KeyEvent.Play => StepResult.next t
    | GameEvent.Key KeyEvent.Pause =>
      StepResult.next { t with state := GameState.Pause }
    | GameEvent.Tick =>
      match t.tick f1 with
      | Except.ok t2 => StepResult.next t2
      | Except.error t2 => StepResult.next { t2 with state := GameState.EndScreen }
  | GameState.Pause =>
    match ev with
    | GameEvent.Key KeyEvent.Quit => StepResult.quit
    | GameEvent.Key KeyEvent.Pause =>
      StepResult.next { t with state := GameState.Playing }
    | _ => StepResult.next t
  | GameState.EndScreen =>
    match ev with
    | GameEvent.Key KeyEvent.Quit => StepResult.quit
    | GameEvent.Key KeyEvent.Play =>
      StepResult.next
        { Tetris.new f1 f2 with state := GameState.Playing, current_block := f3 }
    | _ => StepResult.next t


/-! Concrete objects used to instantiate the theorems. -/

/-- A fully empty game row. -/
def emptyRow : List Square := List.replicate COLS Square.Empty

/-- A fully empty `ROWS x COLS` board. -/
def emptyBoard : List (List Square) := List.replicate ROWS emptyRow

/-- A board that is empty except for one occupied cell in row 2 (the
third spawn-buffer row). -/
def boardRow2 : List (List Square) :=
  List.replicate 2 emptyRow ++
    [Square.Occupied Color.Red :: List.replicate 9 Square.Empty] ++
    List.replicate 20 emptyRow

/-- The T piece at the spawn anchor `(4, 5)`, rotation 0. -/
def blockT0 : Block := ⟨⟨⟨4, 5⟩, ⟨4, 4⟩, ⟨4, 6⟩, ⟨5, 5⟩⟩, Color.Red, Piece.T, 0⟩

/-- An O piece resting on the board floor (rows 21 and 22). -/
def blockO_bottom : Block := ⟨⟨⟨22, 5⟩, ⟨22, 6⟩, ⟨21, 5⟩, ⟨21, 6⟩⟩, Color.Red, Piece.O, 0⟩

/-- A playing session whose current O block rests on the floor of an
otherwise empty board. -/
def sessionFloor : Tetris :=
  { board := emptyBoard, current_block := blockO_bottom, next_block := blockT0,
    points := 0, state := GameState.Playing }

/-- A session in the `EndScreen` state. -/
def sessionEnded : Tetris :=
  { board := boardRow2, current_block := blockT0, next_block := blockT0,
    points := 7, state := GameState.EndScreen }

/-- A playing session over the row-2-occupied board. -/
def sessionRow2 : Tetris :=
  { board := boardRow2, current_block := blockT0, next_block := blockT0,
    points := 0, state := GameState.Playing }

/-! Evaluation lemmas for `get_piece_position` at symbolic anchors. -/

theorem gpp_O_ok (j : Nat) (a : Coordinates) (hr : 1 ≤ a.row) :
    get_piece_position Piece.O j a =
      some (Except.ok ⟨a, ⟨a.row, a.col + 1⟩, ⟨a.row - 1, a.col⟩, ⟨a.row - 1, a.col + 1⟩⟩) := by
  simp [get_piece_position, okArm, mk4, mkC, sub?, hr]

theorem gpp_I_ok_odd (j : Nat) (a : Coordinates) (hj : j % 2 = 1) (hr : 1 < a.row) :
    get_piece_position Piece.I j a =
      some (Except.ok ⟨a, ⟨a.row - 1, a.col⟩, ⟨a.row - 2, a.col⟩, ⟨a.row + 1, a.col⟩⟩) := by
  have h1 : 1 ≤ a.row := by omega
  have h2 : 2 ≤ a.row := by omega
  simp [get_piece_position, okArm, mk4, mkC, sub?, hj, hr, h1, h2]

theorem gpp_I_ok_even (j : Nat) (a : Coordinates) (hj : j % 2 = 0) (hc : 0 < a.col) :
    get_piece_position Piece.I j a =
      some (Except.ok ⟨a, ⟨a.row, a.col + 1⟩, ⟨a.row, a.col + 2⟩, ⟨a.row, a.col - 1⟩⟩) := by
  have h1 : 1 ≤ a.col := hc
  have h2 : ¬(j % 2 = 1 ∧ 1 < a.row) := by omega
  simp [get_piece_position, okArm, mk4, mkC, sub?, hj, hc, h1, h2]

theorem gpp_I_err_odd (j : Nat) (a : Coordinates) (hj : j % 2 = 1) (hr : a.row ≤ 1) :
    get_piece_position Piece.I j a = some (Except.error ()) := by
  simp only [get_piece_position]
  rw [if_neg (by omega), if_neg (by omega)]

theorem gpp_I_err_even (j : Nat) (a : Coordinates) (hj : j % 2 = 0) (hc : a.col = 0) :
    get_piece_position Piece.I j a = some (Except.error ()) := by
  simp only [get_piece_position]
  rw [if_neg (by omega), if_neg (by omega)]

theorem gpp_J0_ok (a : Coordinates) (hc : 0 < a.col) :
    get_piece_position Piece.J 0 a =
      some (Except.ok ⟨a, ⟨a.row, a.col - 1⟩, ⟨a.row, a.col + 1⟩, ⟨a.row + 1, a.col + 1⟩⟩) := by
  have h1 : 1 ≤ a.col := hc
  simp [get_piece_position, okArm, mk4, mkC, sub?, hc, h1]

theorem gpp_J1_ok (a : Coordinates) (hr : 1 ≤ a.row) (hc : 0 < a.col) :
    get_piece_position Piece.J 1 a =
      some (Except.ok ⟨a, ⟨a.row - 1, a.col⟩, ⟨a.row + 1, a.col⟩, ⟨a.row + 1, a.col - 1⟩⟩) := by
  have h1 : 1 ≤ a.col := hc
  simp [get_piece_position, okArm, mk4, mkC, sub?, hc, h1, hr]

theorem gpp_J2_ok (a : Coordinates) (hr : 1 ≤ a.row) (hc : 0 < a.col) :
    get_piece_position Piece.J 2 a =
      some (Except.ok ⟨a, ⟨a.row, a.col + 1⟩, ⟨a.row, a.col - 1⟩, ⟨a.row - 1, a.col - 1⟩⟩) := by
  have h1 : 1 ≤ a.col := hc
  simp [get_piece_position, okArm, mk4, mkC, sub?, hc, h1, hr]

theorem gpp_J3_ok (a : Coordinates) (hr : 1 ≤ a.row) :
    get_piece_position Piece.J 3 a =
      some (Except.ok ⟨a, ⟨a.row - 1, a.col⟩, ⟨a.row - 1, a.col + 1⟩, ⟨a.row + 1, a.col⟩⟩) := by
  simp [get_piece_position, okArm, mk4, mkC, sub?, hr]

theorem gpp_J_err (j : Nat) (a : Coordinates) (hj : j < 3) (hc : a.col = 0) :
    get_piece_position Piece.J j a = some (Except.error ()) := by
  interval_cases j <;> simp [get_piece_position, hc]

theorem gpp_L0_ok (a : Coordinates) (hr : 1 ≤ a.row) (hc : 0 < a.col) :
    get_piece_position Piece.L 0 a =
      some (Except.ok ⟨a, ⟨a.row, a.col + 1⟩, ⟨a.row, a.col - 1⟩, ⟨a.row - 1, a.col + 1⟩⟩) := by
  have h1 : 1 ≤ a.col := hc
  simp [get_piece_position, okArm, mk4, mkC, sub?, hc, h1, hr]

theorem gpp_L1_ok (a : Coordinates) (hr : 1 ≤ a.row) :
    get_piece_position Piece.L 1 a =
      some (Except.ok ⟨a, ⟨a.row - 1, a.col⟩, ⟨a.row + 1, a.col⟩, ⟨a.row + 1, a.col + 1⟩⟩) := by
  simp [get_piece_position, okArm, mk4, mkC, sub?, hr]

theorem gpp_L2_ok (a : Coordinates) (hc : 0 < a.col) :
    get_piece_position Piece.L 2 a =
      some (Except.ok ⟨a, ⟨a.row, a.col + 1⟩, ⟨a.row, a.col - 1⟩, ⟨a.row + 1, a.col - 1⟩⟩) := by
  have h1 : 1 ≤ a.col := hc
  simp [get_piece_position, okArm, mk4, mkC, sub?, hc, h1]

theorem gpp_L3_ok (a : Coordinates) (hr : 1 ≤ a.row) (hc : 0 < a.col) :
    get_piece_position Piece.L 3 a =
      some (Except.ok ⟨a, ⟨a.row + 1, a.col⟩, ⟨a.row - 1, a.col⟩, ⟨a.row - 1, a.col - 1⟩⟩) := by
  have h1 : 1 ≤ a.col := hc
  simp [get_piece_position, okArm, mk4, mkC, sub?, hc, h1, hr]

theorem gpp_L_err (j : Nat) (a : Coordinates) (hj : j = 0 ∨ j = 2) (hc : a.col = 0) :
    get_piece_position Piece.L j a = some (Except.error ()) := by
  rcases hj with h | h <;> subst h <;> simp [get_piece_position, hc]

theorem gpp_L3_panic (a : Coordinates) (hc : a.col = 0) :
    get_piece_position Piece.L 3 a = none := by
  simp [get_piece_position, okArm, mk4, mkC, sub?, hc]

theorem gpp_T0_ok (a : Coordinates) (hc : 0 < a.col) :
    get_piece_position Piece.T 0 a =
      some (Except.ok ⟨a, ⟨a.row, a.col - 1⟩, ⟨a.row, a.col + 1⟩, ⟨a.row + 1, a.col⟩⟩) := by
  have h1 : 1 ≤ a.col := hc
  simp [get_piece_position, okArm, mk4, mkC, sub?, hc, h1]

theorem gpp_T1_ok (a : Coordinates) (hr : 1 ≤ a.row) (hc : 0 < a.col) :
    get_piece_position Piece.T 1 a =
      some (Except.ok ⟨a, ⟨a.row + 1, a.col⟩, ⟨a.row - 1, a.col⟩, ⟨a.row, a.col - 1⟩⟩) := by
  have h1 : 1 ≤ a.col := hc
  simp [get_piece_position, okArm, mk4, mkC, sub?, hc, h1, hr]

theorem gpp_T2_ok (a : Coordinates) (hr : 1 ≤ a.row) (hc : 0 < a.col) :
    get_piece_position Piece.T 2 a =
      some (Except.ok ⟨a, ⟨a.row, a.col + 1⟩, ⟨a.row, a.col - 1⟩, ⟨a.row - 1, a.col⟩⟩) := by
  have h1 : 1 ≤ a.col := hc
  simp [get_piece_position, okArm, mk4, mkC, sub?, hc, h1, hr]

theorem gpp_T3_ok (a : Coordinates) (hr : 1 ≤ a.row) :
    get_piece_position Piece.T 3 a =
      some (Except.ok ⟨a, ⟨a.row - 1, a.col⟩, ⟨a.row + 1, a.col⟩, ⟨a.row, a.col + 1⟩⟩) := by
  simp [get_piece_position, okArm, mk4, mkC, sub?, hr]

theorem gpp_T_err (j : Nat) (a : Coordinates) (hj : j < 3) (hc : a.col = 0) :
    get_piece_position Piece.T j a = some (Except.error ()) := by
  interval_cases j <;> simp [get_piece_position, hc]

theorem gpp_S_ok_odd (j : Nat) (a : Coordinates) (hj : j % 2 = 1) (hr : 1 ≤ a.row) :
    get_piece_position Piece.S j a =
      some (Except.ok ⟨a, ⟨a.row - 1, a.col⟩, ⟨a.row, a.col + 1⟩, ⟨a.row + 1, a.col + 1⟩⟩) := by
  simp [get_piece_position, okArm, mk4, mkC, sub?, hj, hr]

theorem gpp_S_ok_even (j : Nat) (a : Coordinates) (hj : j % 2 = 0) (hr : 1 ≤ a.row) (hc : 0 < a.col) :
    get_piece_position Piece.S j a =
      some (Except.ok ⟨a, ⟨a.row, a.col - 1⟩, ⟨a.row - 1, a.col⟩, ⟨a.row - 1, a.col + 1⟩⟩) := by
  have h1 : 1 ≤ a.col := hc
  have h2 : ¬(j % 2 = 1) := by omega
  simp [get_piece_position, okArm, mk4, mkC, sub?, h2, hc, h1, hr]

theorem gpp_S_err_even (j : Nat) (a : Coordinates) (hj : j % 2 = 0) (hc : a.col = 0) :
    get_piece_position Piece.S j a = some (Except.error ()) := by
  simp only [get_piece_position]
  rw [if_neg (by omega), if_neg (by omega)]

theorem gpp_Z_ok_odd (j : Nat) (a : Coordinates) (hj : j % 2 = 1) (hr : 1 ≤ a.row) :
    get_piece_position Piece.Z j a =
      some (Except.ok ⟨a, ⟨a.row + 1, a.col⟩, ⟨a.row, a.col + 1⟩, ⟨a.row - 1, a.col + 1⟩⟩) := by
  simp [get_piece_position, okArm, mk4, mkC, sub?, hj, hr]

theorem gpp_Z_ok_even (j : Nat) (a : Coordinates) (hj : j % 2 = 0) (hc : 0 < a.col) :
    get_piece_position Piece.Z j a =
      some (Except.ok ⟨a, ⟨a.row, a.col - 1⟩, ⟨a.row + 1, a.col⟩, ⟨a.row + 1, a.col + 1⟩⟩) := by
  have h1 : 1 ≤ a.col := hc
  have h2 : ¬(j % 2 = 1) := by omega
  simp [get_piece_position, okArm, mk4, mkC, sub?, h2, hc, h1]

theorem gpp_Z_err_even (j : Nat) (a : Coordinates) (hj : j % 2 = 0) (hc : a.col = 0) :
    get_piece_position Piece.Z j a = some (Except.error ()) := by
  simp only [get_piece_position]
  rw [if_neg (by omega), if_neg (by omega)]

theorem gpp_J_err_big (j : Nat) (a : Coordinates) (hj : 4 ≤ j) :
    get_piece_position Piece.J j a = some (Except.error ()) := by
  match j, hj with
  | n + 4, _ => simp [get_piece_position]

theorem gpp_L_err_big (j : Nat) (a : Coordinates) (hj : 4 ≤ j) :
    get_piece_position Piece.L j a = some (Except.error ()) := by
  match j, hj with
  | n + 4, _ => simp [get_piece_position]

theorem gpp_T_err_big (j : Nat) (a : Coordinates) (hj : 4 ≤ j) :
    get_piece_position Piece.T j a = some (Except.error ()) := by
  match j, hj with
  | n + 4, _ => simp [get_piece_position]

/-! Behaviour of `rotate` as a function of the geometry result. -/

theorem rotate_err (b : Block)
    (h : get_piece_position b.piece ((b.rotation_pos + 1) % 4) b.position.c0 =
      some (Except.error ())) :
    b.rotate = some b := by
  simp [Block.rotate, h]

theorem rotate_ok (b : Block) (P : Pos4)
    (h : get_piece_position b.piece ((b.rotation_pos + 1) % 4) b.position.c0 =
      some (Except.ok P)) :
    b.rotate = some { b with rotation_pos := (b.rotation_pos + 1) % 4, position := P } := by
  simp [Block.rotate, h]

/-- If the first rotation attempt fails with `Err`, the block never
changes, so four attempts leave it unchanged. -/
theorem rotate4_of_err (b : Block)
    (h : get_piece_position b.piece ((b.rotation_pos + 1) % 4) b.position.c0 =
      some (Except.error ())) :
    rotate4 b = some b := by
  simp [rotate4, rotate_err b h]

/-- If all four successive rotation attempts succeed and each keeps the
anchor, four rotations land on the geometry of index `rotation_pos % 4`. -/
theorem rotate4_of_ok (b : Block) (Q1 Q2 Q3 Q4 : Pos4)
    (h1 : get_piece_position b.piece ((b.rotation_pos + 1) % 4) b.position.c0 =
      some (Except.ok Q1))
    (a1 : Q1.c0 = b.position.c0)
    (h2 : get_piece_position b.piece ((b.rotation_pos + 2) % 4) b.position.c0 =
      some (Except.ok Q2))
    (a2 : Q2.c0 = b.position.c0)
    (h3 : get_piece_position b.piece ((b.rotation_pos + 3) % 4) b.position.c0 =
      some (Except.ok Q3))
    (a3 : Q3.c0 = b.position.c0)
    (h4 : get_piece_position b.piece (b.rotation_pos % 4) b.position.c0 =
      some (Except.ok Q4)) :
    ∃ b4 : Block, rotate4 b = some b4 ∧ b4.position = Q4 := by
  have e1 := rotate_ok b Q1 h1
  have h2x : get_piece_position b.piece (((b.rotation_pos + 1) % 4 + 1) % 4) Q1.c0 =
      some (Except.ok Q2) := by
    rw [a1, show ((b.rotation_pos + 1) % 4 + 1) % 4 = (b.rotation_pos + 2) % 4 from by omega]
    exact h2
  have e2 := rotate_ok { b with rotation_pos := (b.rotation_pos + 1) % 4, position := Q1 } Q2 h2x
  have h3x : get_piece_position b.piece ((((b.rotation_pos + 1) % 4 + 1) % 4 + 1) % 4) Q2.c0 =
      some (Except.ok Q3) := by
    rw [a2, show (((b.rotation_pos + 1) % 4 + 1) % 4 + 1) % 4 = (b.rotation_pos + 3) % 4 from by omega]
    exact h3
  have e3 := rotate_ok
    { b with rotation_pos := ((b.rotation_pos + 1) % 4 + 1) % 4, position := Q2 } Q3 h3x
  have h4x : get_piece_position b.piece (((((b.rotation_pos + 1) % 4 + 1) % 4 + 1) % 4 + 1) % 4)
      Q3.c0 = some (Except.ok Q4) := by
    rw [a3, show ((((b.rotation_pos + 1) % 4 + 1) % 4 + 1) % 4 + 1) % 4 = b.rotation_pos % 4 from by omega]
    exact h4
  have e4 := rotate_ok
    { b with rotation_pos := (((b.rotation_pos + 1) % 4 + 1) % 4 + 1) % 4, position := Q3 } Q4 h4x
  refine ⟨{ b with
      rotation_pos := ((((b.rotation_pos + 1) % 4 + 1) % 4 + 1) % 4 + 1) % 4,
      position := Q4 }, ?_, rfl⟩
  show ((b.rotate.bind Block.rotate).bind Block.rotate).bind Block.rotate = _
  rw [e1, Option.some_bind, e2, Option.some_bind, e3, Option.some_bind, e4]

/-- Four rotations of a block built from an anchored geometry: stuck case
(the first candidate index is rejected with `Err`). -/
theorem rotate4_err_anchored (pc : Piece) (cl : Color) (rp : Nat) (P : Pos4)
    (h : get_piece_position pc ((rp + 1) % 4) P.c0 = some (Except.error ())) :
    ∃ b4 : Block, rotate4 ⟨P, cl, pc, rp⟩ = some b4 ∧ b4.position = P :=
  ⟨⟨P, cl, pc, rp⟩, rotate4_of_err ⟨P, cl, pc, rp⟩ h, rfl⟩

/-- Four rotations of a block built from an anchored geometry: full-cycle
case (all four candidate indices succeed at the same anchor). -/
theorem rotate4_cycle_anchored (pc : Piece) (cl : Color) (rp : Nat) (P Q1 Q2 Q3 Q4 : Pos4)
    (h1 : get_piece_position pc ((rp + 1) % 4) P.c0 = some (Except.ok Q1)) (a1 : Q1.c0 = P.c0)
    (h2 : get_piece_position pc ((rp + 2) % 4) P.c0 = some (Except.ok Q2)) (a2 : Q2.c0 = P.c0)
    (h3 : get_piece_position pc ((rp + 3) % 4) P.c0 = some (Except.ok Q3)) (a3 : Q3.c0 = P.c0)
    (h4 : get_piece_position pc (rp % 4) P.c0 = some (Except.ok Q4))
    (hQ4 : Q4 = P) :
    ∃ b4 : Block, rotate4 ⟨P, cl, pc, rp⟩ = some b4 ∧ b4.position = P := by
  obtain ⟨b4, e, hpos⟩ := rotate4_of_ok ⟨P, cl, pc, rp⟩ Q1 Q2 Q3 Q4 h1 a1 h2 a2 h3 a3 h4
  exact ⟨b4, e, by rw [hpos, hQ4]⟩

/-- Claim C7 (amended): for every piece kind, every rotation index in
`[0,4)`, every color, and every anchor with `row ≥ 1`, a block whose 4
cells are the `Ok` output of `get_piece_position` at that kind, index and
anchor returns to its original cell set after four `rotate()` calls (and
no call panics on the way). -/
theorem rotate_four_times_restores_cells
    (p : Piece) (cl : Color) (i : Nat) (a : Coordinates) (P : Pos4)
    (hi : i < 4) (hr : 1 ≤ a.row)
    (hP : get_piece_position p i a = some (Except.ok P)) :
    ∃ b4 : Block, rotate4 ⟨P, cl, p, i⟩ = some b4 ∧ b4.position = P := by
  cases p
  case O =>
    rw [gpp_O_ok i a hr] at hP
    simp only [Option.some.injEq, Except.ok.injEq] at hP
    subst hP
    apply rotate4_cycle_anchored
    · exact gpp_O_ok ((i + 1) % 4) a hr
    · rfl
    · exact gpp_O_ok ((i + 2) % 4) a hr
    · rfl
    · exact gpp_O_ok ((i + 3) % 4) a hr
    · rfl
    · exact gpp_O_ok (i % 4) a hr
    · rfl
  case I =>
    by_cases hpar : i % 2 = 1
    · by_cases hrow : 1 < a.row
      · rw [gpp_I_ok_odd i a hpar hrow] at hP
        simp only [Option.some.injEq, Except.ok.injEq] at hP
        subst hP
        by_cases hcol : 0 < a.col
        · apply rotate4_cycle_anchored
          · exact gpp_I_ok_even ((i + 1) % 4) a (by omega) hcol
          · rfl
          · exact gpp_I_ok_odd ((i + 2) % 4) a (by omega) hrow
          · rfl
          · exact gpp_I_ok_even ((i + 3) % 4) a (by omega) hcol
          · rfl
          · exact gpp_I_ok_odd (i % 4) a (by omega) hrow
          · rfl
        · apply rotate4_err_anchored
          show get_piece_position Piece.I ((i + 1) % 4) a = some (Except.error ())
          exact gpp_I_err_even ((i + 1) % 4) a (by omega) (by omega)
      · rw [gpp_I_err_odd i a hpar (by omega)] at hP
        simp at hP
    · by_cases hcol : 0 < a.col
      · rw [gpp_I_ok_even i a (by omega) hcol] at hP
        simp only [Option.some.injEq, Except.ok.injEq] at hP
        subst hP
        by_cases hrow : 1 < a.row
        · apply rotate4_cycle_anchored
          · exact gpp_I_ok_odd ((i + 1) % 4) a (by omega) hrow
          · rfl
          · exact gpp_I_ok_even ((i + 2) % 4) a (by omega) hcol
          · rfl
          · exact gpp_I_ok_odd ((i + 3) % 4) a (by omega) hrow
          · rfl
          · exact gpp_I_ok_even (i % 4) a (by omega) hcol
          · rfl
        · apply rotate4_err_anchored
          show get_piece_position Piece.I ((i + 1) % 4) a = some (Except.error ())
          exact gpp_I_err_odd ((i + 1) % 4) a (by omega) (by omega)
      · rw [gpp_I_err_even i a (by omega) (by omega)] at hP
        simp at hP
  case S =>
    by_cases hpar : i % 2 = 1
    · rw [gpp_S_ok_odd i a hpar hr] at hP
      simp only [Option.some.injEq, Except.ok.injEq] at hP
      subst hP
      by_cases hcol : 0 < a.col
      · apply rotate4_cycle_anchored
        · exact gpp_S_ok_even ((i + 1) % 4) a (by omega) hr hcol
        · rfl
        · exact gpp_S_ok_odd ((i + 2) % 4) a (by omega) hr
        · rfl
        · exact gpp_S_ok_even ((i + 3) % 4) a (by omega) hr hcol
        · rfl
        · exact gpp_S_ok_odd (i % 4) a (by omega) hr
        · rfl
      · apply rotate4_err_anchored
        show get_piece_position Piece.S ((i + 1) % 4) a = some (Except.error ())
        exact gpp_S_err_even ((i + 1) % 4) a (by omega) (by omega)
    · by_cases hcol : 0 < a.col
      · rw [gpp_S_ok_even i a (by omega) hr hcol] at hP
        simp only [Option.some.injEq, Except.ok.injEq] at hP
        subst hP
        apply rotate4_cycle_anchored
        · exact gpp_S_ok_odd ((i + 1) % 4) a (by omega) hr
        · rfl
        · exact gpp_S_ok_even ((i + 2) % 4) a (by omega) hr hcol
        · rfl
        · exact gpp_S_ok_odd ((i + 3) % 4) a (by omega) hr
        · rfl
        · exact gpp_S_ok_even (i % 4) a (by omega) hr hcol
        · rfl
      · rw [gpp_S_err_even i a (by omega) (by omega)] at hP
        simp at hP
  case Z =>
    by_cases hpar : i % 2 = 1
    · rw [gpp_Z_ok_odd i a hpar hr] at hP
      simp only [Option.some.injEq, Except.ok.injEq] at hP
      subst hP
      by_cases hcol : 0 < a.col
      · apply rotate4_cycle_anchored
        · exact gpp_Z_ok_even ((i + 1) % 4) a (by omega) hcol
        · rfl
        · exact gpp_Z_ok_odd ((i + 2) % 4) a (by omega) hr
        · rfl
        · exact gpp_Z_ok_even ((i + 3) % 4) a (by omega) hcol
        · rfl
        · exact gpp_Z_ok_odd (i % 4) a (by omega) hr
        · rfl
      · apply rotate4_err_anchored
        show get_piece_position Piece.Z ((i + 1) % 4) a = some (Except.error ())
        exact gpp_Z_err_even ((i + 1) % 4) a (by omega) (by omega)
    · by_cases hcol : 0 < a.col
      · rw [gpp_Z_ok_even i a (by omega) hcol] at hP
        simp only [Option.some.injEq, Except.ok.injEq] at hP
        subst hP
        apply rotate4_cycle_anchored
        · exact gpp_Z_ok_odd ((i + 1) % 4) a (by omega) hr
        · rfl
        · exact gpp_Z_ok_even ((i + 2) % 4) a (by omega) hcol
        · rfl
        · exact gpp_Z_ok_odd ((i + 3) % 4) a (by omega) hr
        · rfl
        · exact gpp_Z_ok_even (i % 4) a (by omega) hcol
        · rfl
      · rw [gpp_Z_err_even i a (by omega) (by omega)] at hP
        simp at hP
  case J =>
    interval_cases i
    · by_cases hcol : 0 < a.col
      · rw [gpp_J0_ok a hcol] at hP
        simp only [Option.some.injEq, Except.ok.injEq] at hP
        subst hP
        apply rotate4_cycle_anchored
        · exact gpp_J1_ok a hr hcol
        · rfl
        · exact gpp_J2_ok a hr hcol
        · rfl
        · exact gpp_J3_ok a hr
        · rfl
        · exact gpp_J0_ok a hcol
        · rfl
      · rw [gpp_J_err 0 a (by omega) (by omega)] at hP
        simp at hP
    · by_cases hcol : 0 < a.col
      · rw [gpp_J1_ok a hr hcol] at hP
        simp only [Option.some.injEq, Except.ok.injEq] at hP
        subst hP
        apply rotate4_cycle_anchored
        · exact gpp_J2_ok a hr hcol
        · rfl
        · exact gpp_J3_ok a hr
        · rfl
        · exact gpp_J0_ok a hcol
        · rfl
        · exact gpp_J1_ok a hr hcol
        · rfl
      · rw [gpp_J_err 1 a (by omega) (by omega)] at hP
        simp at hP
    · by_cases hcol : 0 < a.col
      · rw [gpp_J2_ok a hr hcol] at hP
        simp only [Option.some.injEq, Except.ok.injEq] at hP
        subst hP
        apply rotate4_cycle_anchored
        · exact gpp_J3_ok a hr
        · rfl
        · exact gpp_J0_ok a hcol
        · rfl
        · exact gpp_J1_ok a hr hcol
        · rfl
        · exact gpp_J2_ok a hr hcol
        · rfl
      · rw [gpp_J_err 2 a (by omega) (by omega)] at hP
        simp at hP
    · rw [gpp_J3_ok a hr] at hP
      simp only [Option.some.injEq, Except.ok.injEq] at hP
      subst hP
      by_cases hcol : 0 < a.col
      · apply rotate4_cycle_anchored
        · exact gpp_J0_ok a hcol
        · rfl
        · exact gpp_J1_ok a hr hcol
        · rfl
        · exact gpp_J2_ok a hr hcol
        · rfl
        · exact gpp_J3_ok a hr
        · rfl
      · apply rotate4_err_anchored
        show get_piece_position Piece.J 0 a = some (Except.error ())
        exact gpp_J_err 0 a (by omega) (by omega)
  case L =>
    interval_cases i
    · by_cases hcol : 0 < a.col
      · rw [gpp_L0_ok a hr hcol] at hP
        simp only [Option.some.injEq, Except.ok.injEq] at hP
        subst hP
        apply rotate4_cycle_anchored
        · exact gpp_L1_ok a hr
        · rfl
        · exact gpp_L2_ok a hcol
        · rfl
        · exact gpp_L3_ok a hr hcol
        · rfl
        · exact gpp_L0_ok a hr hcol
        · rfl
      · rw [gpp_L_err 0 a (Or.inl rfl) (by omega)] at hP
        simp at hP
    · rw [gpp_L1_ok a hr] at hP
      simp only [Option.some.injEq, Except.ok.injEq] at hP
      subst hP
      by_cases hcol : 0 < a.col
      · apply rotate4_cycle_anchored
        · exact gpp_L2_ok a hcol
        · rfl
        · exact gpp_L3_ok a hr hcol
        · rfl
        · exact gpp_L0_ok a hr hcol
        · rfl
        · exact gpp_L1_ok a hr
        · rfl
      · apply rotate4_err_anchored
        show get_piece_position Piece.L 2 a = some (Except.error ())
        exact gpp_L_err 2 a (Or.inr rfl) (by omega)
    · by_cases hcol : 0 < a.col
      · rw [gpp_L2_ok a hcol] at hP
        simp only [Option.some.injEq, Except.ok.injEq] at hP
        subst hP
        apply rotate4_cycle_anchored
        · exact gpp_L3_ok a hr hcol
        · rfl
        · exact gpp_L0_ok a hr hcol
        · rfl
        · exact gpp_L1_ok a hr
        · rfl
        · exact gpp_L2_ok a hcol
        · rfl
      · rw [gpp_L_err 2 a (Or.inr rfl) (by omega)] at hP
        simp at hP
    · by_cases hcol : 0 < a.col
      · rw [gpp_L3_ok a hr hcol] at hP
        simp only [Option.some.injEq, Except.ok.injEq] at hP
        subst hP
        apply rotate4_cycle_anchored
        · exact gpp_L0_ok a hr hcol
        · rfl
        · exact gpp_L1_ok a hr
        · rfl
        · exact gpp_L2_ok a hcol
        · rfl
        · exact gpp_L3_ok a hr hcol
        · rfl
      · rw [gpp_L3_panic a (by omega)] at hP
        simp at hP
  case T =>
    interval_cases i
    · by_cases hcol : 0 < a.col
      · rw [gpp_T0_ok a hcol] at hP
        simp only [Option.some.injEq, Except.ok.injEq] at hP
        subst hP
        apply rotate4_cycle_anchored
        · exact gpp_T1_ok a hr hcol
        · rfl
        · exact gpp_T2_ok a hr hcol
        · rfl
        · exact gpp_T3_ok a hr
        · rfl
        · exact gpp_T0_ok a hcol
        · rfl
      · rw [gpp_T_err 0 a (by omega) (by omega)] at hP
        simp at hP
    · by_cases hcol : 0 < a.col
      · rw [gpp_T1_ok a hr hcol] at hP
        simp only [Option.some.injEq, Except.ok.injEq] at hP
        subst hP
        apply rotate4_cycle_anchored
        · exact gpp_T2_ok a hr hcol
        · rfl
        · exact gpp_T3_ok a hr
        · rfl
        · exact gpp_T0_ok a hcol
        · rfl
        · exact gpp_T1_ok a hr hcol
        · rfl
      · rw [gpp_T_err 1 a (by omega) (by omega)] at hP
        simp at hP
    · by_cases hcol : 0 < a.col
      · rw [gpp_T2_ok a hr hcol] at hP
        simp only [Option.some.injEq, Except.ok.injEq] at hP
        subst hP
        apply rotate4_cycle_anchored
        · exact gpp_T3_ok a hr
        · rfl
        · exact gpp_T0_ok a hcol
        · rfl
        · exact gpp_T1_ok a hr hcol
        · rfl
        · exact gpp_T2_ok a hr hcol
        · rfl
      · rw [gpp_T_err 2 a (by omega) (by omega)] at hP
        simp at hP
    · rw [gpp_T3_ok a hr] at hP
      simp only [Option.some.injEq, Except.ok.injEq] at hP
      subst hP
      by_cases hcol : 0 < a.col
      · apply rotate4_cycle_anchored
        · exact gpp_T0_ok a hcol
        · rfl
        · exact gpp_T1_ok a hr hcol
        · rfl
        · exact gpp_T2_ok a hr hcol
        · rfl
        · exact gpp_T3_ok a hr
        · rfl
      · apply rotate4_err_anchored
        show get_piece_position Piece.T 0 a = some (Except.error ())
        exact gpp_T_err 0 a (by omega) (by omega)

/-! Bridges between the 4-cell record and list quantifiers. -/

theorem Pos4.all_iff (p : Pos4) (f : Coordinates → Bool) :
    p.all f = true ↔ ∀ c ∈ p.toList, f c = true := by
  simp [Pos4.all, Pos4.toList, and_assoc]

theorem Pos4.any_iff (p : Pos4) (f : Coordinates → Bool) :
    p.any f = true ↔ ∃ c ∈ p.toList, f c = true := by
  simp [Pos4.any, Pos4.toList, or_assoc]

/-- Claim C8: `left()` is a no-op when some cell is at column 0, and
translates all 4 cells one column left when every cell has column > 0. -/
theorem left_noop_or_translates (b : Block) :
    ((∃ c ∈ b.position.toList, c.col = 0) → b.left = b) ∧
    ((∀ c ∈ b.position.toList, 0 < c.col) →
      b.left = { b with position := b.position.map fun c => ⟨c.row, c.col - 1⟩ }) := by
  constructor
  · intro h
    obtain ⟨c, hc, h0⟩ := h
    have hfalse : (b.position.all fun sq => decide (0 < sq.col)) = false := by
      rw [Bool.eq_false_iff]
      intro hall
      have := (Pos4.all_iff _ _).mp hall c hc
      simp [h0] at this
    simp [Block.left, hfalse]
  · intro h
    have htrue : (b.position.all fun sq => decide (0 < sq.col)) = true :=
      (Pos4.all_iff _ _).mpr fun c hc => by simp [h c hc]
    simp [Block.left, htrue]

/-- Claim C8 (witness): a block touching column 0 is unchanged by
`left()`; a block fully right of column 0 moves one column left. -/
theorem left_noop_or_translates_witness :
    (⟨⟨⟨5, 0⟩, ⟨5, 1⟩, ⟨4, 0⟩, ⟨4, 1⟩⟩, Color.Red, Piece.O, 0⟩ : Block).left =
      ⟨⟨⟨5, 0⟩, ⟨5, 1⟩, ⟨4, 0⟩, ⟨4, 1⟩⟩, Color.Red, Piece.O, 0⟩ ∧
    (⟨⟨⟨5, 5⟩, ⟨5, 6⟩, ⟨4, 5⟩, ⟨4, 6⟩⟩, Color.Blue, Piece.O, 0⟩ : Block).left =
      ⟨⟨⟨5, 4⟩, ⟨5, 5⟩, ⟨4, 4⟩, ⟨4, 5⟩⟩, Color.Blue, Piece.O, 0⟩ := by
  constructor
  · exact (left_noop_or_translates _).1 ⟨⟨5, 0⟩, by simp [Pos4.toList], rfl⟩
  · exact (left_noop_or_translates _).2 (by decide)

/-- Claim C6: `rotate()` tries index `(rotation_pos + 1) % 4` at the
current anchor `position[0]`; on `Err` the block is exactly unchanged, on
`Ok` the index advances and the cells become the provider's output. -/
theorem rotate_err_keeps_ok_updates (b : Block) :
    (get_piece_position b.piece ((b.rotation_pos + 1) % 4) b.position.c0 =
        some (Except.error ()) → b.rotate = some b) ∧
    (∀ P : Pos4, get_piece_position b.piece ((b.rotation_pos + 1) % 4) b.position.c0 =
        some (Except.ok P) →
      b.rotate = some { b with rotation_pos := (b.rotation_pos + 1) % 4, position := P }) :=
  ⟨fun h => rotate_err b h, fun P h => rotate_ok b P h⟩

/-- Claim C6 (witness): a T block at column 0 whose next index is rejected
keeps cells and index; an O block advances its index and re-derives. -/
theorem rotate_err_keeps_ok_updates_witness :
    (⟨⟨⟨5, 0⟩, ⟨6, 0⟩, ⟨4, 0⟩, ⟨5, 1⟩⟩, Color.Red, Piece.T, 3⟩ : Block).rotate =
      some ⟨⟨⟨5, 0⟩, ⟨6, 0⟩, ⟨4, 0⟩, ⟨5, 1⟩⟩, Color.Red, Piece.T, 3⟩ ∧
    (⟨⟨⟨5, 5⟩, ⟨5, 6⟩, ⟨4, 5⟩, ⟨4, 6⟩⟩, Color.Red, Piece.O, 0⟩ : Block).rotate =
      some ⟨⟨⟨5, 5⟩, ⟨5, 6⟩, ⟨4, 5⟩, ⟨4, 6⟩⟩, Color.Red, Piece.O, 1⟩ := by
  constructor
  · exact (rotate_err_keeps_ok_updates _).1 rfl
  · exact (rotate_err_keeps_ok_updates _).2 ⟨⟨5, 5⟩, ⟨5, 6⟩, ⟨4, 5⟩, ⟨4, 6⟩⟩ rfl

/-- Claim C2 (counterexample): the claim fails as stated — an anchor with
row 0 reaches an unguarded `row - 1` (kind `O`, any index), and the
`(L, 3)` arm reaches an unguarded `col - 1` at column 0; both are modelled
as `none` (the `usize` underflow panic/wrap), not as an `Err` return. -/
theorem get_piece_position_underflow_cex :
    get_piece_position Piece.O 0 ⟨0, 0⟩ = none ∧
    get_piece_position Piece.L 3 ⟨5, 0⟩ = none := ⟨rfl, rfl⟩

/-- Claim C2 (amended): on every anchor with `row ≥ 1` and `col ≥ 1` the
geometry function is total: for every piece kind and every rotation index
it returns `Ok` with 4 coordinates or an `Err`, never an underflow. -/
theorem get_piece_position_total_interior (p : Piece) (i : Nat) (a : Coordinates)
    (hr : 1 ≤ a.row) (hc : 1 ≤ a.col) :
    ∃ r : Except Unit Pos4, get_piece_position p i a = some r := by
  have hc0 : 0 < a.col := hc
  cases p
  case O => exact ⟨_, gpp_O_ok i a hr⟩
  case I =>
    by_cases hpar : i % 2 = 1
    · by_cases hrow : 1 < a.row
      · exact ⟨_, gpp_I_ok_odd i a hpar hrow⟩
      · exact ⟨_, gpp_I_err_odd i a hpar (by omega)⟩
    · exact ⟨_, gpp_I_ok_even i a (by omega) hc0⟩
  case S =>
    by_cases hpar : i % 2 = 1
    · exact ⟨_, gpp_S_ok_odd i a hpar hr⟩
    · exact ⟨_, gpp_S_ok_even i a (by omega) hr hc0⟩
  case Z =>
    by_cases hpar : i % 2 = 1
    · exact ⟨_, gpp_Z_ok_odd i a hpar hr⟩
    · exact ⟨_, gpp_Z_ok_even i a (by omega) hc0⟩
  case J =>
    match i with
    | 0 => exact ⟨_, gpp_J0_ok a hc0⟩
    | 1 => exact ⟨_, gpp_J1_ok a hr hc0⟩
    | 2 => exact ⟨_, gpp_J2_ok a hr hc0⟩
    | 3 => exact ⟨_, gpp_J3_ok a hr⟩
    | n + 4 => exact ⟨_, gpp_J_err_big (n + 4) a (by omega)⟩
  case L =>
    match i with
    | 0 => exact ⟨_, gpp_L0_ok a hr hc0⟩
    | 1 => exact ⟨_, gpp_L1_ok a hr⟩
    | 2 => exact ⟨_, gpp_L2_ok a hc0⟩
    | 3 => exact ⟨_, gpp_L3_ok a hr hc0⟩
    | n + 4 => exact ⟨_, gpp_L_err_big (n + 4) a (by omega)⟩
  case T =>
    match i with
    | 0 => exact ⟨_, gpp_T0_ok a hc0⟩
    | 1 => exact ⟨_, gpp_T1_ok a hr hc0⟩
    | 2 => exact ⟨_, gpp_T2_ok a hr hc0⟩
    | 3 => exact ⟨_, gpp_T3_ok a hr⟩
    | n + 4 => exact ⟨_, gpp_T_err_big (n + 4) a (by omega)⟩

/-- Claim C2 (witness): totality at a concrete interior anchor. -/
theorem get_piece_position_total_interior_witness :
    ∃ r : Except Unit Pos4, get_piece_position Piece.L 3 ⟨1, 1⟩ = some r :=
  get_piece_position_total_interior Piece.L 3 ⟨1, 1⟩ (by decide) (by decide)

/-- Claim C10: `Block::new()` never panics — for all 7 kinds and all
rotation indices in `[0,4)` the geometry at the fixed spawn anchor
`(4, COLS / 2) = (4, 5)` is `Ok`, and the spawned block's anchor cell
`position[0]` is exactly `(4, 5)`. -/
theorem block_new_total_and_anchored :
    ∀ (p : Piece) (c : Color), ∀ i < 4,
      ((Block.new c p i).map fun b => b.position.c0) = some ⟨4, 5⟩ := by
  decide

/-- Claim C10 (witness): a concrete spawn. -/
theorem block_new_total_and_anchored_witness :
    ((Block.new Color.Red Piece.I 1).map fun b => b.position.c0) = some ⟨4, 5⟩ :=
  block_new_total_and_anchored Piece.I Color.Red 1 (by decide)

/-- Claim C7 (counterexample): the claim fails as stated for anchors on
row 0 — `get_piece_position` accepts `(T, 0)` anchored at `(0, 5)` (a
valid block), but the first `rotate()` call evaluates the `(T, 1)` arm,
whose `row - 1` underflows: rotating four times panics (modelled `none`)
instead of returning to the original cell set. -/
theorem rotate_four_times_cex :
    get_piece_position Piece.T 0 ⟨0, 5⟩ =
      some (Except.ok ⟨⟨0, 5⟩, ⟨0, 4⟩, ⟨0, 6⟩, ⟨1, 5⟩⟩) ∧
    rotate4 ⟨⟨⟨0, 5⟩, ⟨0, 4⟩, ⟨0, 6⟩, ⟨1, 5⟩⟩, Color.Red, Piece.T, 0⟩ = none :=
  ⟨rfl, rfl⟩

/-- Claim C7 (witness): a T block at the spawn anchor cycles back after
four rotations. -/
theorem rotate_four_times_restores_cells_witness :
    ∃ b4 : Block,
      rotate4 ⟨⟨⟨4, 5⟩, ⟨4, 4⟩, ⟨4, 6⟩, ⟨5, 5⟩⟩, Color.Red, Piece.T, 0⟩ = some b4 ∧
      b4.position = ⟨⟨4, 5⟩, ⟨4, 4⟩, ⟨4, 6⟩, ⟨5, 5⟩⟩ :=
  rotate_four_times_restores_cells Piece.T Color.Red 0 ⟨4, 5⟩
    ⟨⟨4, 5⟩, ⟨4, 4⟩, ⟨4, 6⟩, ⟨5, 5⟩⟩ (by decide) (by decide) rfl

/-- `remove_lines_completed` written without the internal lets. -/
theorem remove_lines_completed_eq (t : Tetris) :
    t.remove_lines_completed =
      if 0 < ROWS - (t.board.filter rowHasEmpty).length then
        { t with
          board := List.replicate (ROWS - (t.board.filter rowHasEmpty).length)
              (List.replicate COLS Square.Empty) ++ t.board.filter rowHasEmpty,
          points := t.points + (ROWS - (t.board.filter rowHasEmpty).length) }
      else { t with board := t.board.filter rowHasEmpty } := rfl

/-- Claim C4: on a board of height `ROWS`, line clearing removes exactly
the rows with no `Empty` cell, inserts that many all-`Empty` rows at the
top, keeps the order of the remaining rows and the height `ROWS`, adds
exactly the number of removed rows to the score, and leaves no fully
occupied row. -/
theorem remove_lines_completed_spec (t : Tetris) (h : t.board.length = ROWS) :
    (t.remove_lines_completed).board =
      List.replicate ((t.board.filter fun r => !(rowHasEmpty r)).length)
        (List.replicate COLS Square.Empty) ++ t.board.filter rowHasEmpty ∧
    (t.remove_lines_completed).board.length = ROWS ∧
    (t.remove_lines_completed).points =
      t.points + (t.board.filter fun r => !(rowHasEmpty r)).length ∧
    ∀ row ∈ (t.remove_lines_completed).board, rowHasEmpty row = true := by
  have hcount := @List.length_eq_length_filter_add _ t.board rowHasEmpty
  have hsub : (t.board.filter rowHasEmpty).length ≤ t.board.length :=
    List.Sublist.length_le (List.filter_sublist _)
  have hd : ROWS - (t.board.filter rowHasEmpty).length =
      (t.board.filter fun r => !(rowHasEmpty r)).length := by omega
  rw [remove_lines_completed_eq]
  by_cases hpos : 0 < ROWS - (t.board.filter rowHasEmpty).length
  · rw [if_pos hpos]
    refine ⟨by rw [hd], ?_, by rw [hd], ?_⟩
    · simp only [List.length_append, List.length_replicate]
      omega
    · intro row hrow
      rcases List.mem_append.mp hrow with hmem | hmem
      · rw [List.eq_of_mem_replicate hmem]
        decide
      · exact List.of_mem_filter hmem
  · rw [if_neg hpos]
    have hzero : (t.board.filter fun r => !(rowHasEmpty r)).length = 0 := by omega
    have hkeep : t.board.filter rowHasEmpty = t.board :=
      List.Sublist.eq_of_length (List.filter_sublist _) (by omega)
    refine ⟨?_, ?_, ?_, ?_⟩
    · rw [hzero]
      simp
    · show (t.board.filter rowHasEmpty).length = ROWS
      omega
    · show t.points = t.points + (t.board.filter fun r => !(rowHasEmpty r)).length
      omega
    · intro row hrow
      exact List.of_mem_filter hrow

/-- Claim C4 (witness): a board with one completed row (row 22 fully
occupied) loses exactly that row, gains one empty row on top, and scores
one point. -/
theorem remove_lines_completed_spec_witness :
    ({ board := List.replicate 22 (List.replicate COLS Square.Empty) ++
          [List.replicate COLS (Square.Occupied Color.Red)],
       current_block := ⟨⟨⟨4, 5⟩, ⟨4, 4⟩, ⟨4, 6⟩, ⟨5, 5⟩⟩, Color.Red, Piece.T, 0⟩,
       next_block := ⟨⟨⟨4, 5⟩, ⟨4, 4⟩, ⟨4, 6⟩, ⟨5, 5⟩⟩, Color.Red, Piece.T, 0⟩,
       points := 0, state := GameState.Playing } : Tetris).remove_lines_completed.points =
      0 + (((List.replicate 22 (List.replicate COLS Square.Empty) ++
          [List.replicate COLS (Square.Occupied Color.Red)]).filter
            fun r => !(rowHasEmpty r)).length) :=
  (remove_lines_completed_spec _ (by decide)).2.2.1

/-- Claim C5 (helper): the collision test of one tentative cell. -/
theorem collision_cell_iff (t : Tetris) (c : Coordinates) :
    (decide (COLS ≤ c.col) || decide (ROWS ≤ c.row) ||
        ((t.is_occupied c).getD false)) = true ↔
      (COLS ≤ c.col ∨ ROWS ≤ c.row ∨
        ∃ cl, t.board[c.row]?.bind (fun r => r[c.col]?) = some (Square.Occupied cl)) := by
  cases hb : t.board[c.row]? with
  | none => simp [Tetris.is_occupied, hb]
  | some r =>
    cases hc2 : r[c.col]? with
    | none => simp [Tetris.is_occupied, hb, hc2]
    | some sq =>
      cases sq with
      | Empty => simp [Tetris.is_occupied, hb, hc2]
      | Occupied d => simp [Tetris.is_occupied, hb, hc2]

/-- Claim C5: on a `ROWS x COLS` board, `is_collision(block)` is true iff
some cell of the block has `col ≥ COLS`, or `row ≥ ROWS`, or sits on an
occupied board cell (the board is never mutated: the test is a pure
function of the tentative cells). -/
theorem is_collision_iff (t : Tetris) (b : Block)
    (hlen : t.board.length = ROWS)
    (hwide : ∀ row ∈ t.board, row.length = COLS) :
    t.is_collision b = true ↔
      ∃ c ∈ b.position.toList, COLS ≤ c.col ∨ ROWS ≤ c.row ∨
        ∃ cl, t.board[c.row]?.bind (fun r => r[c.col]?) = some (Square.Occupied cl) := by
  unfold Tetris.is_collision
  rw [Pos4.any_iff]
  constructor
  · rintro ⟨c, hc, hf⟩
    exact ⟨c, hc, (collision_cell_iff t c).mp hf⟩
  · rintro ⟨c, hc, hf⟩
    exact ⟨c, hc, (collision_cell_iff t c).mpr hf⟩

/-- Claim C5 (witness): the collision characterisation at a concrete
session and block. -/
theorem is_collision_iff_witness :
    sessionFloor.is_collision blockO_bottom = true ↔
      ∃ c ∈ blockO_bottom.position.toList, COLS ≤ c.col ∨ ROWS ≤ c.row ∨
        ∃ cl, sessionFloor.board[c.row]?.bind (fun r => r[c.col]?) =
          some (Square.Occupied cl) :=
  is_collision_iff sessionFloor blockO_bottom (by decide) (by decide)

/-! Reduction lemmas for the consumer-loop step function. -/

theorem step_playing_down (t : Tetris) (f1 f2 f3 : Block) (h : t.state = GameState.Playing) :
    t.step (GameEvent.Key KeyEvent.Down) f1 f2 f3 = StepResult.next t.block_down := by
  delta Tetris.step
  rw [h]

theorem step_playing_tick (t : Tetris) (f1 f2 f3 : Block) (h : t.state = GameState.Playing) :
    t.step GameEvent.Tick f1 f2 f3 =
      match t.tick f1 with
      | Except.ok t2 => StepResult.next t2
      | Except.error t2 => StepResult.next { t2 with state := GameState.EndScreen } := by
  delta Tetris.step
  rw [h]

theorem step_endscreen_play (t : Tetris) (f1 f2 f3 : Block) (h : t.state = GameState.EndScreen) :
    t.step (GameEvent.Key KeyEvent.Play) f1 f2 f3 = StepResult.next
      { Tetris.new f1 f2 with state := GameState.Playing, current_block := f3 } := by
  delta Tetris.step
  rw [h]

/-- `tick` on a blocked-down current block: lock, clear, then check
`is_end` and the next block's collision; promote on success. -/
theorem tick_settles (t : Tetris) (fresh : Block)
    (hcol : t.can_block_move t.current_block KeyEvent.Down = false) :
    t.tick fresh =
      if (t.add_current_block.remove_lines_completed).is_end then
        Except.error (t.add_current_block.remove_lines_completed)
      else if (t.add_current_block.remove_lines_completed).is_collision
          (t.add_current_block.remove_lines_completed).next_block then
        Except.error (t.add_current_block.remove_lines_completed)
      else Except.ok { t.add_current_block.remove_lines_completed with
        current_block := (t.add_current_block.remove_lines_completed).next_block,
        next_block := fresh } := by
  simp [Tetris.tick, hcol]

/-- Claim C1 (counterexample): the claim fails as stated — on a board
whose only occupied cell is in row 2, `is_end` is false although a cell
of rows 0 through 2 is occupied: the source's `rev().skip(ROWS - 2)`
keeps only rows 1 and 0. -/
theorem is_end_row2_cex :
    ¬ (sessionRow2.is_end = true ↔
        ∃ i, i < 3 ∧ ∃ sq ∈ boardRow2.getD i [], sq ≠ Square.Empty) := by
  intro hiff
  have h2 : ∃ i, i < 3 ∧ ∃ sq ∈ boardRow2.getD i [], sq ≠ Square.Empty :=
    ⟨2, by omega, Square.Occupied Color.Red, by decide, by decide⟩
  have hf : sessionRow2.is_end = false := by decide
  have hends := hiff.mpr h2
  rw [hf] at hends
  exact Bool.noConfusion hends

/-- Claim C1 (amended): on a board of height `ROWS`, `is_end` is true iff
some cell of row 0 or row 1 (the top TWO spawn-buffer rows only) is not
`Empty`. -/
theorem is_end_iff_top_two_rows (t : Tetris) (h : t.board.length = ROWS) :
    t.is_end = true ↔ ∃ i, i < 2 ∧ ∃ sq ∈ t.board.getD i [], sq ≠ Square.Empty := by
  unfold Tetris.is_end
  rcases hb : t.board with _ | ⟨r0, rest0⟩
  · rw [hb] at h
    simp [ROWS] at h
  rcases rest0 with _ | ⟨r1, rest⟩
  · rw [hb] at h
    simp [ROWS] at h
  rw [hb] at h
  have hrest : rest.reverse.length = ROWS - 2 := by
    simp only [List.length_cons, List.length_reverse] at h ⊢
    omega
  have hdrop : ((r0 :: r1 :: rest).reverse).drop (ROWS - 2) = [r1, r0] := by
    rw [List.reverse_cons, List.reverse_cons, List.append_assoc, ← hrest, List.drop_left]
    rfl
  rw [hdrop]
  simp only [List.any_cons, List.any_nil, Bool.or_false, Bool.or_eq_true,
    List.any_eq_true, decide_eq_true_eq]
  constructor
  · rintro (⟨sq, hsq, hne⟩ | ⟨sq, hsq, hne⟩)
    · exact ⟨1, by omega, sq, by simpa using hsq, hne⟩
    · exact ⟨0, by omega, sq, by simpa using hsq, hne⟩
  · rintro ⟨i, hi, sq, hsq, hne⟩
    interval_cases i
    · right
      exact ⟨sq, by simpa using hsq, hne⟩
    · left
      exact ⟨sq, by simpa using hsq, hne⟩

/-- Claim C1 (witness): the two-row characterisation at a concrete
session (occupied cell in row 1 only). -/
theorem is_end_iff_top_two_rows_witness :
    ({ board := emptyRow :: (Square.Occupied Color.Red :: List.replicate 9 Square.Empty) ::
          List.replicate 21 emptyRow,
       current_block := blockT0, next_block := blockT0,
       points := 0, state := GameState.Playing } : Tetris).is_end = true ↔
      ∃ i, i < 2 ∧ ∃ sq ∈ (emptyRow :: (Square.Occupied Color.Red ::
          List.replicate 9 Square.Empty) :: List.replicate 21 emptyRow).getD i [],
        sq ≠ Square.Empty :=
  is_end_iff_top_two_rows _ (by decide)

/-- Claim C3 (counterexample): the claim fails as stated — in `Playing`,
with the current block unable to move one row down, a Down *key* event
returns the session entirely unchanged (the board still has no occupied
cell), instead of settling (locking) the piece as the claim requires for
both event sources. -/
theorem down_key_does_not_settle_cex :
    sessionFloor.can_block_move sessionFloor.current_block KeyEvent.Down = false ∧
    sessionFloor.state = GameState.Playing ∧
    sessionFloor.step (GameEvent.Key KeyEvent.Down) blockT0 blockT0 blockT0 =
      StepResult.next sessionFloor ∧
    sessionFloor.board = emptyBoard :=
  ⟨by decide, rfl, by decide, rfl⟩

/-- Claim C3 (amended): while `Playing`, only the gravity tick settles a
blocked-down piece: it locks the current block, clears completed lines,
then ends the game if `is_end` holds or the waiting next block collides,
and otherwise promotes the next block and spawns a fresh one; a Down key
event in the same situation leaves the session unchanged. -/
theorem down_collision_tick_settles_key_noop (t : Tetris) (f1 f2 f3 : Block)
    (hstate : t.state = GameState.Playing)
    (hcol : t.can_block_move t.current_block KeyEvent.Down = false) :
    t.step (GameEvent.Key KeyEvent.Down) f1 f2 f3 = StepResult.next t ∧
    ((t.add_current_block.remove_lines_completed).is_end = false →
      (t.add_current_block.remove_lines_completed).is_collision
        (t.add_current_block.remove_lines_completed).next_block = false →
      t.step GameEvent.Tick f1 f2 f3 = StepResult.next
        { t.add_current_block.remove_lines_completed with
          current_block := (t.add_current_block.remove_lines_completed).next_block,
          next_block := f1 }) ∧
    (((t.add_current_block.remove_lines_completed).is_end = true ∨
        (t.add_current_block.remove_lines_completed).is_collision
          (t.add_current_block.remove_lines_completed).next_block = true) →
      t.step GameEvent.Tick f1 f2 f3 = StepResult.next
        { t.add_current_block.remove_lines_completed with
          state := GameState.EndScreen }) := by
  refine ⟨?_, ?_, ?_⟩
  · rw [step_playing_down t f1 f2 f3 hstate]
    simp [Tetris.block_down, hcol]
  · intro h1 h2
    rw [step_playing_tick t f1 f2 f3 hstate, tick_settles t f1 hcol]
    simp [h1, h2]
  · intro h
    rw [step_playing_tick t f1 f2 f3 hstate, tick_settles t f1 hcol]
    by_cases he : (t.add_current_block.remove_lines_completed).is_end = true
    · simp [he]
    · rcases h with h | h
      · exact absurd h he
      · simp [he, h]

/-- Claim C3 (witness): the settle path at a concrete session — an O
block resting on the floor locks, no line completes, the game is not
over, and the waiting next block is promoted. -/
theorem down_collision_tick_settles_key_noop_witness :
    sessionFloor.step (GameEvent.Key KeyEvent.Down) blockT0 blockT0 blockT0 =
      StepResult.next sessionFloor ∧
    sessionFloor.step GameEvent.Tick blockT0 blockT0 blockT0 = StepResult.next
      { sessionFloor.add_current_block.remove_lines_completed with
        current_block := (sessionFloor.add_current_block.remove_lines_completed).next_block,
        next_block := blockT0 } :=
  ⟨(down_collision_tick_settles_key_noop sessionFloor blockT0 blockT0 blockT0 rfl
      (by decide)).1,
   (down_collision_tick_settles_key_noop sessionFloor blockT0 blockT0 blockT0 rfl
      (by decide)).2.1 (by decide) (by decide)⟩

/-- Claim C9: from `EndScreen`, a Play input yields a fully reset session:
every board cell `Empty`, score 0, state `Playing`, with a fresh current
and next block pair. -/
theorem endscreen_play_resets (t : Tetris) (f1 f2 f3 : Block)
    (h : t.state = GameState.EndScreen) :
    ∃ t2 : Tetris, t.step (GameEvent.Key KeyEvent.Play) f1 f2 f3 = StepResult.next t2 ∧
      t2.board = List.replicate ROWS (List.replicate COLS Square.Empty) ∧
      t2.points = 0 ∧ t2.state = GameState.Playing ∧
      t2.current_block = f3 ∧ t2.next_block = f2 :=
  ⟨_, step_endscreen_play t f1 f2 f3 h, rfl, rfl, rfl, rfl, rfl⟩

/-- Claim C9 (witness): restart from a concrete ended session. -/
theorem endscreen_play_resets_witness :
    ∃ t2 : Tetris, sessionEnded.step (GameEvent.Key KeyEvent.Play) blockT0 blockT0
        blockO_bottom = StepResult.next t2 ∧
      t2.board = List.replicate ROWS (List.replicate COLS Square.Empty) ∧
      t2.points = 0 ∧ t2.state = GameState.Playing ∧
      t2.current_block = blockO_bottom ∧ t2.next_block = blockT0 :=
  endscreen_play_resets sessionEnded blockT0 blockT0 blockO_bottom rfl
